import Mathlib

/-!
Verification of the multi-agent system in `main.py` (Ollama-Teams).

The development shallowly embeds the core of the program:
* `AIChatHistory` with `add_message` / `get_context` (the Memory Log);
* `BaseAgent.execute_action` / `BaseAgent.map_parameters` (the Action
  Dispatcher with its static reconciliation table);
* `BaseAgent.think` / `act` / `learn` / `run` (the Agent Loop), with the
  external Generator replaced by an explicit stream of Thoughts and the
  sequence of `add_message` calls recorded as a trace;
* the `main` scheduler (one worker per agent, every worker's outcome
  collected, exceptions caught per agent).

Python exceptions are modelled with `Except` / `Option`; a Python call
`f(**params)` raises `TypeError` when the supplied keyword set differs from
the declared parameter set, and a handler body may itself raise a
`TypeError` or any other exception — `callHandler` models all three, the
way the dispatcher's ordered `except TypeError` / `except Exception`
clauses observe them.
-/

/-- One entry of an `AIChatHistory`: the dict `{"role": r, "content": c}`. -/
structure Message where
  role : String
  content : String
deriving DecidableEq, Repr

/-- The Memory Log: `AIChatHistory.__init__` with `messages = []` and the
given capacity (`max_messages`, default 100 in the source). -/
structure AIChatHistory where
  messages : List Message
  max_messages : Nat
deriving DecidableEq, Repr

/-- A fresh `AIChatHistory(max_messages)`. -/
def AIChatHistory.mk0 (cap : Nat) : AIChatHistory :=
  { messages := [], max_messages := cap }

/-- `AIChatHistory.add_message`: append the message, then `pop(0)` when the
length exceeds `max_messages`. -/
def add_message (h : AIChatHistory) (role content : String) : AIChatHistory :=
  let ms := h.messages ++ [{ role := role, content := content }]
  if ms.length > h.max_messages then
    { messages := ms.drop 1, max_messages := h.max_messages }
  else
    { messages := ms, max_messages := h.max_messages }

/-- `AIChatHistory.get_context`: the Python slice `messages[-last_n:]`.
For `last_n = 0` the slice `messages[-0:]` is `messages[0:]`, i.e. the whole
list; for `last_n ≥ 1` it is the suffix of length `min last_n len`. -/
def get_context (h : AIChatHistory) (last_n : Nat) : List Message :=
  if last_n = 0 then h.messages
  else h.messages.drop (h.messages.length - last_n)

/-- Run a whole sequence of `add_message (role, content)` calls on a fresh
log of capacity `cap`. -/
def applyCalls (cap : Nat) (calls : List (String × String)) : AIChatHistory :=
  calls.foldl (fun h rc => add_message h rc.1 rc.2) (AIChatHistory.mk0 cap)

/-- `add_message` never changes the capacity. -/
theorem add_message_max (h : AIChatHistory) (r c : String) :
    (add_message h r c).max_messages = h.max_messages := by
  unfold add_message
  dsimp only
  split <;> rfl

/-- `add_message` preserves the capacity bound on the length. -/
theorem add_message_length_le (h : AIChatHistory)
    (hlen : h.messages.length ≤ h.max_messages) (r c : String) :
    (add_message h r c).messages.length ≤ h.max_messages := by
  unfold add_message
  dsimp only
  split
  · simp only [List.length_drop, List.length_append, List.length_cons,
      List.length_nil]
    omega
  · rename_i hle
    simp only [List.length_append, List.length_cons, List.length_nil] at hle ⊢
    omega

/-- The fold of any call sequence keeps both invariants. -/
theorem applyCalls_invariant (cap : Nat) (calls : List (String × String)) :
    (applyCalls cap calls).max_messages = cap ∧
      (applyCalls cap calls).messages.length ≤ cap := by
  unfold applyCalls
  induction calls generalizing cap with
  | nil => exact ⟨rfl, Nat.zero_le cap⟩
  | cons rc rest ih =>
    simp only [List.foldl_cons]
    have hmax := add_message_max (AIChatHistory.mk0 cap) rc.1 rc.2
    have hlen := add_message_length_le (AIChatHistory.mk0 cap)
      (Nat.zero_le cap) rc.1 rc.2
    -- the fold from any state within capacity stays within capacity
    have step : ∀ (h : AIChatHistory) (cs : List (String × String)),
        h.max_messages = cap → h.messages.length ≤ cap →
        (cs.foldl (fun h rc => add_message h rc.1 rc.2) h).max_messages = cap ∧
          (cs.foldl (fun h rc => add_message h rc.1 rc.2) h).messages.length ≤ cap := by
      intro h cs
      induction cs generalizing h with
      | nil => intro h1 h2; exact ⟨h1, h2⟩
      | cons d ds ihd =>
        intro h1 h2
        simp only [List.foldl_cons]
        apply ihd
        · rw [add_message_max, h1]
        · have := add_message_length_le h (h1 ▸ h2) d.1 d.2
          rw [h1] at this
          exact this
    exact step _ _ (by simpa [AIChatHistory.mk0] using hmax)
      (by simpa [AIChatHistory.mk0] using hlen)

/-- C1: over every capacity and every sequence of `add_message` calls on a
fresh Memory Log, the length never exceeds the capacity; moreover whenever an
append makes the length exceed the capacity, the message removed is the head
of the appended list — the oldest entry — and the rest keep their order
(FIFO eviction). -/
theorem C1_memory_bounded_fifo :
    (∀ (cap : Nat) (calls : List (String × String)),
        (applyCalls cap calls).messages.length ≤ cap) ∧
      (∀ (h : AIChatHistory) (r c : String),
        h.messages.length + 1 > h.max_messages →
        (add_message h r c).messages
          = (h.messages ++ [Message.mk r c]).drop 1) := by
  constructor
  · intro cap calls
    exact (applyCalls_invariant cap calls).2
  · intro h r c hex
    have hcond : (h.messages ++ [Message.mk r c]).length > h.max_messages := by
      simp only [List.length_append, List.length_cons, List.length_nil]
      omega
    simp only [add_message]
    rw [if_pos hcond]

/-- A two-message log of capacity 2, for the C1 witness. -/
def demoFullLog : AIChatHistory :=
  { messages := [Message.mk "u" "A", Message.mk "u" "B"], max_messages := 2 }

/-- Witness for C1 at a concrete input: capacity 2, appends A, B, C. -/
theorem C1_memory_bounded_fifo_witness :
    (applyCalls 2 [("u", "A"), ("u", "B"), ("u", "C")]).messages.length ≤ 2 ∧
      (add_message demoFullLog "u" "C").messages
        = (demoFullLog.messages ++ [Message.mk "u" "C"]).drop 1 :=
  ⟨C1_memory_bounded_fifo.1 2 [("u", "A"), ("u", "B"), ("u", "C")],
    C1_memory_bounded_fifo.2 demoFullLog "u" "C" (by decide)⟩

/-- A concrete one-message log used to refute the `n = 0` case of C2. -/
def demoLog : AIChatHistory :=
  { messages := [{ role := "user", content := "A" }], max_messages := 100 }

/-- C2 as stated is false: at `last_n = 0` on a nonempty log, `get_context`
returns the whole list (1 entry here), not `min 0 len = 0` entries. -/
theorem C2_counterexample :
    ¬ ((get_context demoLog 0).length = min 0 demoLog.messages.length) := by
  decide

/-- C2 (amended to `n ≥ 1`): `get_context n` returns exactly
`min n len` entries, and those entries are a suffix of the message list —
the last `n` appended messages in original order with no gaps. `get_context`
is a pure function of the log, so the log itself is unchanged. -/
theorem C2_get_context (h : AIChatHistory) (n : Nat) (hn : 1 ≤ n) :
    (get_context h n).length = min n h.messages.length ∧
      h.messages.take (h.messages.length - n) ++ get_context h n = h.messages := by
  have hne : n ≠ 0 := Nat.one_le_iff_ne_zero.mp hn
  unfold get_context
  rw [if_neg hne]
  constructor
  · rw [List.length_drop]
    omega
  · exact List.take_append_drop _ _

/-- A three-message log of capacity 100, for the C2 witness. -/
def demoLog3 : AIChatHistory :=
  { messages := [Message.mk "u" "A", Message.mk "u" "B", Message.mk "u" "C"],
    max_messages := 100 }

/-- Witness for C2 at a concrete input: a 3-message log with `n = 2`. -/
theorem C2_get_context_witness :
    (get_context demoLog3 2).length = min 2 demoLog3.messages.length ∧
      demoLog3.messages.take (demoLog3.messages.length - 2) ++
          get_context demoLog3 2
        = demoLog3.messages :=
  C2_get_context demoLog3 2 (by decide)

/-- C10: `get_context` with `last_n = 0` returns the entire message list,
because `messages[-0:]` is `messages[0:]`. -/
theorem C10_get_context_zero (h : AIChatHistory) :
    get_context h 0 = h.messages := by
  unfold get_context
  rw [if_pos rfl]

/-! ## The Action Dispatcher (`BaseAgent.execute_action` / `map_parameters`) -/

/-- A keyword-argument mapping, i.e. the Python `params` dict passed as
`action_func(**params)`. Values are the string payloads the handlers use. -/
abbrev Args := List (String × String)

/-- An exception a handler body can raise. The source dispatcher branches on
the Python type of the exception — `except TypeError` before
`except Exception` — so the model keeps a body-raised `TypeError` (e.g. an
unhashable dict key at line 357) distinct from every other exception. -/
inductive PyErr where
  | typeError (msg : String)
  | otherError (msg : String)
deriving DecidableEq

/-- A handler from an action map: the names of its declared parameters (all
required, as in the source handlers) and its body. A body that raises maps
to `Except.error` with the raised exception. -/
structure Handler where
  params : List String
  run : Args → Except PyErr String

/-- Outcome of the Python call `action_func(**params)` as the dispatcher's
`except` clauses see it: normal return, a `TypeError` (whether from keyword
binding or raised inside the handler body — the source's `except TypeError`
at line 85 cannot tell these apart), or any other exception raised inside
the handler body. -/
inductive CallOutcome where
  | ok (result : String)
  | typeErr (msg : String)
  | raised (msg : String)

/-- The single-quote character, used by the source f-strings that quote the
action name inside error messages. -/
def quoteStr : String := String.singleton (Char.ofNat 39)

/-- `True` iff the supplied keyword set equals the declared parameter set,
which is exactly when Python binds `**params` without `TypeError` (no
missing and no unexpected keyword). -/
def sigMatches (declared : List String) (args : Args) : Bool :=
  (args.map Prod.fst).all (fun k => declared.contains k) &&
    declared.all (fun p => (args.map Prod.fst).contains p)

/-- The (unobserved) text of the `TypeError` raised on a binding mismatch. -/
def typeErrMsg : String := "got unexpected or missing keyword arguments"

/-- Call a handler with keyword arguments, with Python binding semantics: a
binding mismatch raises `TypeError` before the body runs; when binding
succeeds the body runs and may itself raise. A body-raised `TypeError`
lands in the same `typeErr` outcome as a binding mismatch, because the
dispatcher's `except TypeError` clause catches both alike. -/
def callHandler (f : Handler) (args : Args) : CallOutcome :=
  if sigMatches f.params args then
    match f.run args with
    | Except.ok s => CallOutcome.ok s
    | Except.error (PyErr.typeError e) => CallOutcome.typeErr e
    | Except.error (PyErr.otherError e) => CallOutcome.raised e
  else CallOutcome.typeErr typeErrMsg

/-- A reconciliation table: `action_name → (supplied name → expected name)`. -/
abbrev RecTable := List (String × List (String × String))

/-- The static table hard-coded in `BaseAgent.map_parameters`. -/
def mappings : RecTable :=
  [("conduct_market_research", [("company_name", "business_idea")]),
   ("analyze_data", [("research_topic", "topic")]),
   ("review_code", [("existing_code", "feature_name")]),
   ("report_findings", [("message", "findings")])]

/-- `BaseAgent.map_parameters`, parameterised by the table (the source
hard-codes `mappings`; the spec treats the table as configurable data):
keep only params whose name appears in the table entry, renamed through it;
return `none` when the action has no entry or the reduced set is empty. -/
def map_parametersT (table : RecTable) (action : String) (params : Args) :
    Option Args :=
  match table.lookup action with
  | none => none
  | some expected =>
    let mapped := params.filterMap (fun kv =>
      if (expected.map Prod.fst).contains kv.1 then
        some ((expected.lookup kv.1).getD kv.1, kv.2)
      else none)
    if mapped.isEmpty then none else some mapped

/-- `BaseAgent.map_parameters` with the table of the source. -/
def map_parameters (action : String) (params : Args) : Option Args :=
  map_parametersT mappings action params

/-- Format of the `Unknown action` dispatch result. -/
def unknownStr (action : String) : String :=
  "Unknown action: " ++ action

/-- Format of the argument-mismatch dispatch error (`except TypeError` path
and failed-retry path): the source f-string quotes the action name. -/
def errStr (action e : String) : String :=
  "Error executing action " ++ quoteStr ++ action ++ quoteStr ++ ": " ++ e

/-- Format of the handler-internal dispatch error (`except Exception` path). -/
def unexpectedErrStr (action e : String) : String :=
  "Unexpected error executing action " ++ quoteStr ++ action ++ quoteStr ++ ": " ++ e

/-- `BaseAgent.execute_action`, instrumented with the list of argument sets
the handler is invoked with (first attempt, then the single reconciliation
retry when it happens). First component is the returned dispatch string. -/
def execute_actionT (table : RecTable) (action_map : List (String × Handler))
    (action : String) (params : Args) : String × List Args :=
  match action_map.lookup action with
  | none => (unknownStr action, [])
  | some action_func =>
    match callHandler action_func params with
    | CallOutcome.ok s => (s, [params])
    | CallOutcome.raised e => (unexpectedErrStr action e, [params])
    | CallOutcome.typeErr te =>
      match map_parametersT table action params with
      | some mapped_params =>
        match callHandler action_func mapped_params with
        | CallOutcome.ok s => (s, [params, mapped_params])
        | CallOutcome.typeErr e => (errStr action e, [params, mapped_params])
        | CallOutcome.raised e => (errStr action e, [params, mapped_params])
      | none => (errStr action te, [params])

/-- `BaseAgent.execute_action` as in the source: static table, result only. -/
def execute_action (action_map : List (String × Handler)) (action : String)
    (params : Args) : String :=
  (execute_actionT mappings action_map action params).1

/-- The two dispatcher error formats are distinct: the handler-internal
message never equals an argument-mismatch message, whatever the action
names and detail texts are. -/
theorem unexpectedErrStr_ne_errStr (a e b te : String) :
    unexpectedErrStr a e ≠ errStr b te := by
  intro h
  have hd := congrArg String.data h
  simp only [unexpectedErrStr, errStr, String.data_append] at hd
  simp only [List.cons_append] at hd
  injection hd with h1 _
  exact absurd h1 (by decide)

/-- C5: dispatching an action that is not in the action map returns exactly
the string `Unknown action: ` followed by the action name. `execute_action`
is a total Lean function, so no exception can escape it. -/
theorem C5_unknown_action (action_map : List (String × Handler))
    (action : String) (params : Args)
    (habsent : action_map.lookup action = none) :
    execute_action action_map action params = "Unknown action: " ++ action := by
  simp [execute_action, execute_actionT, habsent, unknownStr]

/-- Witness for C5: the scenario from the spec, an empty action map and the
name `nonexistent_action`. -/
theorem C5_unknown_action_witness :
    execute_action [] "nonexistent_action" [] =
      "Unknown action: " ++ "nonexistent_action" :=
  C5_unknown_action [] "nonexistent_action" [] rfl

/-- C6: when the action is in the map and the parameters match the handler
signature, the handler body runs and its result is returned directly; the
call trace is the single original attempt, and the result does not depend on
the reconciliation table (`table` is universally quantified), so the table
is never consulted on this path. -/
theorem C6_direct_result (table : RecTable)
    (action_map : List (String × Handler)) (action : String) (params : Args)
    (f : Handler) (s : String)
    (hfound : action_map.lookup action = some f)
    (hsig : sigMatches f.params params = true)
    (hrun : f.run params = Except.ok s) :
    execute_actionT table action_map action params = (s, [params]) := by
  have hch : callHandler f params = CallOutcome.ok s := by
    simp [callHandler, hsig, hrun]
  simp [execute_actionT, hfound, hch]

/-- A demo handler for the C6 witness, shaped like `ResearchAgent.conduct_research`
(declared parameter `topic`, success string built from it). -/
def demoResearch : Handler :=
  { params := ["topic"],
    run := fun args =>
      Except.ok ("Research on " ++ quoteStr ++ ((args.lookup "topic").getD "")
        ++ quoteStr ++ " completed successfully.") }

/-- Witness for C6 at a concrete input. -/
theorem C6_direct_result_witness :
    execute_actionT mappings [("conduct_research", demoResearch)]
        "conduct_research" [("topic", "x")]
      = ("Research on " ++ quoteStr ++ "x" ++ quoteStr
          ++ " completed successfully.", [[("topic", "x")]]) :=
  C6_direct_result mappings [("conduct_research", demoResearch)]
    "conduct_research" [("topic", "x")] demoResearch
    ("Research on " ++ quoteStr ++ "x" ++ quoteStr ++ " completed successfully.")
    rfl rfl rfl

/-- `filterMap` with an if-some-else-none body is filter followed by map. -/
theorem filterMap_if_eq {α β : Type} (p : α → Bool) (g : α → β) (l : List α) :
    l.filterMap (fun x => if p x then some (g x) else none)
      = (l.filter p).map g := by
  induction l with
  | nil => rfl
  | cons x xs ih =>
    by_cases hx : p x
    · simp [List.filterMap_cons, List.filter_cons, hx, ih]
    · simp [List.filterMap_cons, List.filter_cons, hx, ih]

/-- The reduced/renamed parameter set `map_parameters` builds from a table
entry: only the supplied params whose name appears in the entry survive (in
their original order), each renamed through the entry. -/
def reduceParams (entry : List (String × String)) (params : Args) : Args :=
  (params.filter (fun kv => (entry.map Prod.fst).contains kv.1)).map
    (fun kv => ((entry.lookup kv.1).getD kv.1, kv.2))

/-- `map_parametersT` computes exactly `reduceParams` (or `none` when that
set is empty). -/
theorem map_parametersT_eq (table : RecTable) (action : String) (params : Args)
    (entry : List (String × String))
    (htab : table.lookup action = some entry) :
    map_parametersT table action params
      = if (reduceParams entry params).isEmpty then none
        else some (reduceParams entry params) := by
  unfold map_parametersT
  rw [htab]
  simp only [reduceParams, filterMap_if_eq]

/-- C7: on an argument-shape mismatch for an action with a reconciliation
entry whose reduced/renamed set is non-empty, `map_parameters` yields exactly
that reduced set and the handler is invoked exactly twice: the original
attempt and one retry with the reduced set. Params not named in the entry are
excluded (`reduceParams` filters on entry membership). -/
theorem C7_reconciliation_retry (table : RecTable)
    (action_map : List (String × Handler)) (action : String) (params : Args)
    (f : Handler) (entry : List (String × String))
    (hfound : action_map.lookup action = some f)
    (hsig : sigMatches f.params params = false)
    (htab : table.lookup action = some entry)
    (hne : reduceParams entry params ≠ []) :
    map_parametersT table action params = some (reduceParams entry params) ∧
      (execute_actionT table action_map action params).2
        = [params, reduceParams entry params] := by
  have hmp : map_parametersT table action params
      = some (reduceParams entry params) := by
    rw [map_parametersT_eq table action params entry htab]
    rw [if_neg]
    simp only [List.isEmpty_iff]
    exact hne
  refine ⟨hmp, ?_⟩
  have hch : callHandler f params = CallOutcome.typeErr typeErrMsg := by
    simp [callHandler, hsig]
  simp only [execute_actionT, hfound, hch, hmp]
  rcases hc : callHandler f (reduceParams entry params) with s | m | m <;>
    simp [hc]

/-- `EntrepreneurAgent.conduct_market_research`: declared parameter
`business_idea`, fixed success string (the domain-state write is not
observable through the dispatch result). -/
def conduct_market_research : Handler :=
  { params := ["business_idea"],
    run := fun _ => Except.ok "Market research conducted and updated." }

/-- Witness for C7: `conduct_market_research` called with the wrong name
`company_name` plus an extra param; the table maps `company_name` to
`business_idea` and the extra param is dropped. -/
theorem C7_reconciliation_retry_witness :
    map_parametersT mappings "conduct_market_research"
        [("company_name", "x"), ("detail", "z")]
      = some (reduceParams [("company_name", "business_idea")]
          [("company_name", "x"), ("detail", "z")]) ∧
      (execute_actionT mappings
          [("conduct_market_research", conduct_market_research)]
          "conduct_market_research" [("company_name", "x"), ("detail", "z")]).2
        = [[("company_name", "x"), ("detail", "z")],
            reduceParams [("company_name", "business_idea")]
              [("company_name", "x"), ("detail", "z")]] :=
  C7_reconciliation_retry mappings
    [("conduct_market_research", conduct_market_research)]
    "conduct_market_research" [("company_name", "x"), ("detail", "z")]
    conduct_market_research [("company_name", "business_idea")]
    rfl rfl rfl (by decide)

/-- A model of `DeveloperAgent.write_code` whose body raises `TypeError`
after binding succeeds — the source behaviour of
`self.codebase[feature_name] = code` at line 357 when the generator supplies
an unhashable `feature_name` value. -/
def write_code_unhashable : Handler :=
  { params := ["feature_name", "code"],
    run := fun _ => Except.error (PyErr.typeError "unhashable type: list") }

/-- C8 as stated is false on the source: a `TypeError` raised inside the
handler body under a structurally valid parameter set is caught by the same
`except TypeError` clause (line 85) as a binding mismatch, so the dispatcher
does consult `map_parameters` (here: no `write_code` entry, so no retry) and
returns the argument-mismatch `Error executing action` format — not the
handler-internal `Unexpected error` format the claim predicts. -/
theorem C8_counterexample :
    execute_actionT mappings [("write_code", write_code_unhashable)]
        "write_code" [("feature_name", "x"), ("code", "c")]
      = (errStr "write_code" "unhashable type: list",
          [[("feature_name", "x"), ("code", "c")]]) ∧
      (execute_actionT mappings [("write_code", write_code_unhashable)]
          "write_code" [("feature_name", "x"), ("code", "c")]).1
        ≠ unexpectedErrStr "write_code" "unhashable type: list" := by
  refine ⟨by decide, ?_⟩
  rw [show (execute_actionT mappings [("write_code", write_code_unhashable)]
      "write_code" [("feature_name", "x"), ("code", "c")]).1
      = errStr "write_code" "unhashable type: list" from by decide]
  exact fun h => unexpectedErrStr_ne_errStr "write_code"
    "unhashable type: list" "write_code" "unhashable type: list" h.symm

/-- C8 (amended to exceptions other than `TypeError`): when the parameters
match the signature and the handler body raises any exception that is not a
`TypeError`, the dispatch result is the handler-internal error format, the
handler is invoked only once (no retry), the reconciliation table is never
consulted (the result is the same for every `table`), and the result is
distinguishable from every argument-mismatch error string. A body-raised
`TypeError` instead takes the argument-mismatch path (see
`C8_counterexample`). -/
theorem C8_handler_internal_error (table : RecTable)
    (action_map : List (String × Handler)) (action : String) (params : Args)
    (f : Handler) (e : String)
    (hfound : action_map.lookup action = some f)
    (hsig : sigMatches f.params params = true)
    (hrun : f.run params = Except.error (PyErr.otherError e)) :
    execute_actionT table action_map action params
        = (unexpectedErrStr action e, [params]) ∧
      ∀ b te, (execute_actionT table action_map action params).1
        ≠ errStr b te := by
  have hch : callHandler f params = CallOutcome.raised e := by
    simp [callHandler, hsig, hrun]
  have hmain : execute_actionT table action_map action params
      = (unexpectedErrStr action e, [params]) := by
    simp [execute_actionT, hfound, hch]
  refine ⟨hmain, fun b te => ?_⟩
  rw [hmain]
  exact unexpectedErrStr_ne_errStr action e b te

/-- A handler whose body always raises a non-`TypeError` exception, for the
C8 witness. -/
def alwaysRaises : Handler :=
  { params := ["task"],
    run := fun _ => Except.error (PyErr.otherError "boom") }

/-- Witness for C8 at a concrete input. -/
theorem C8_handler_internal_error_witness :
    execute_actionT mappings [("perform_task", alwaysRaises)] "perform_task"
          [("task", "t")]
        = (unexpectedErrStr "perform_task" "boom", [[("task", "t")]]) ∧
      ∀ b te, (execute_actionT mappings [("perform_task", alwaysRaises)]
          "perform_task" [("task", "t")]).1 ≠ errStr b te :=
  C8_handler_internal_error mappings [("perform_task", alwaysRaises)]
    "perform_task" [("task", "t")] alwaysRaises "boom" rfl rfl rfl

/-- `DeveloperAgent.write_code`: declared parameters `feature_name` and
`code`; returns the success string built from `feature_name` (the write to
`self.codebase` is not observable through the dispatch result). -/
def write_code : Handler :=
  { params := ["feature_name", "code"],
    run := fun args =>
      Except.ok ("Code written for " ++ ((args.lookup "feature_name").getD "")
        ++ ".") }

/-- The developer action map restricted to the entry the C9 scenario
dispatches (the other two entries cannot be consulted when the action name
is `write_code`). -/
def developer_action_map : List (String × Handler) :=
  [("write_code", write_code)]

/-- C9 as stated is false on the source: the static reconciliation table
`mappings` has no `write_code` entry, so the dispatch of `write_code` with
`{name: x, body: y}` performs no retry (the handler is only invoked with the
mismatched set once) and returns the argument-mismatch error string, not the
success result. -/
theorem C9_counterexample :
    execute_actionT mappings developer_action_map "write_code"
        [("name", "x"), ("body", "y")]
      = (errStr "write_code" typeErrMsg, [[("name", "x"), ("body", "y")]]) ∧
      (execute_actionT mappings developer_action_map "write_code"
          [("name", "x"), ("body", "y")]).1 ≠ "Code written for x." := by
  refine ⟨by decide, ?_⟩
  rw [show (execute_actionT mappings developer_action_map "write_code"
      [("name", "x"), ("body", "y")]).1 = errStr "write_code" typeErrMsg
      from by decide]
  decide

/-- The static table extended with the `write_code` entry the C9 scenario
assumes. -/
def extendedMappings : RecTable :=
  mappings ++ [("write_code", [("name", "feature_name"), ("body", "code")])]

/-- C9 (amended): with a reconciliation table that does contain the entry
`write_code → {name → feature_name, body → code}` (the source table does
not), dispatching `write_code` with `{name: x, body: y}` retries the handler
with `{feature_name: x, code: y}` and returns its success result. -/
theorem C9_write_code_reconciliation :
    execute_actionT extendedMappings developer_action_map "write_code"
        [("name", "x"), ("body", "y")]
      = ("Code written for x.",
          [[("name", "x"), ("body", "y")],
            [("feature_name", "x"), ("code", "y")]]) := by
  decide

/-! ## The Agent Loop (`BaseAgent.think` / `act` / `learn` / `run`) and the
`main` scheduler. The external Generator is replaced by an explicit stream
of Thoughts (one per iteration; a transport failure is the empty Thought,
as `generate_response` returns `{}` on error). Every `add_message` call is
also recorded in an append trace, so that counting appended entries is not
obscured by capacity eviction. -/

/-- The `function` dict inside a tool call: `get` of `name` defaults to the
empty string, `get` of `arguments` to the empty dict. -/
structure FuncCall where
  name : Option String
  arguments : Option Args
deriving DecidableEq

/-- One element of a Thought `tool_calls` list; `get` of `function` defaults
to the empty dict. -/
structure ToolCallEntry where
  func : Option FuncCall
deriving DecidableEq

/-- A Thought, the structured Generator output: optional `content` text and
optional `tool_calls` list. `none` models the dict key being absent; the
Generator-failure Thought is the one with both fields absent. -/
structure Thought where
  content : Option String
  tool_calls : Option (List ToolCallEntry)
deriving DecidableEq

/-- Serialisation of an argument mapping, part of the `json.dumps` model. -/
def serializeArgs (args : Args) : String :=
  String.intercalate ", " (args.map (fun kv => kv.1 ++ ": " ++ kv.2))

/-- A model of `json.dumps(thought)`; the loop only stores this text, so
its exact shape is unobservable through the claims. -/
def serializeThought (t : Thought) : String :=
  "content: " ++ t.content.getD "" ++ "; tool_calls: " ++
    (match t.tool_calls with
     | none => "absent"
     | some tcs => String.intercalate "; " (tcs.map (fun tc =>
         match tc.func with
         | none => "call"
         | some f => "call " ++ f.name.getD "" ++ " ("
             ++ serializeArgs (f.arguments.getD []) ++ ")")))

/-- A model of `json.dumps(experience)` for the `learn` step. -/
def serializeExperience (t : Thought) (actionResult : String) : String :=
  "thought: " ++ serializeThought t ++ "; action: " ++ actionResult

/-- The dispatch part of `BaseAgent.act`: the source tests `if
tool_calls in action` (key presence), then indexes `action[tool_calls][0]`
— which raises `IndexError` when the list is present but empty, modelled as
`none`. Otherwise the first call (later calls ignored) is dispatched with
`get`-defaults for its name and arguments, or the no-instruction text is
produced when the key is absent. -/
def actOutcome (action_map : List (String × Handler)) (t : Thought) :
    Option String :=
  match t.tool_calls with
  | some [] => none
  | some (tc :: _) =>
    let f := tc.func.getD { name := none, arguments := none }
    some (execute_action action_map (f.name.getD "") (f.arguments.getD []))
  | none =>
    some ("No actionable instruction found in: " ++ t.content.getD "")

/-- One `add_message` call on the memory, also recorded in the trace. -/
def appendMsg (st : AIChatHistory × List Message) (role content : String) :
    AIChatHistory × List Message :=
  (add_message st.1 role content, st.2 ++ [Message.mk role content])

/-- `BaseAgent.run`: `k` iterations of think → act → learn starting at
iteration index `i` (the index selects the Thought the Generator produces
that iteration). The jitter sleep has no observable effect on the state.
An uncaught `IndexError` from `act` aborts the whole loop. -/
def runLoop (action_map : List (String × Handler)) (thoughts : Nat → Thought) :
    Nat → Nat → (AIChatHistory × List Message) →
    Except String (AIChatHistory × List Message)
  | _, 0, st => Except.ok st
  | i, k + 1, st =>
    let t := thoughts i
    let st1 := appendMsg st "agent" (serializeThought t)
    match actOutcome action_map t with
    | none => Except.error "list index out of range"
    | some result =>
      let st2 := appendMsg st1 "environment" ("Action result: " ++ result)
      let st3 := appendMsg st2 "experience" (serializeExperience t result)
      runLoop action_map thoughts (i + 1) k st3

/-- An agent as the Scheduler sees it: its name, its action map, and the
stream of Thoughts its Generator will produce. -/
structure AgentSpec where
  name : String
  action_map : List (String × Handler)
  thoughts : Nat → Thought

/-- A full `run(max_iterations = k)` of one agent from a fresh Memory Log
of the default capacity 100. -/
def runAgent (a : AgentSpec) (k : Nat) :
    Except String (AIChatHistory × List Message) :=
  runLoop a.action_map a.thoughts 0 k (AIChatHistory.mk0 100, [])

/-- Number of Experience entries in an append trace. -/
def countExperiences (tr : List Message) : Nat :=
  (tr.filter (fun m => m.role == "experience")).length

/-- An agent stream is well formed up to `k` when no Thought used by the
first `k` iterations carries a present-but-empty `tool_calls` list. -/
def wellFormed (a : AgentSpec) (k : Nat) : Prop :=
  ∀ m, m < k → (a.thoughts m).tool_calls ≠ some []

/-- `countExperiences` adds over trace concatenation. -/
theorem countExperiences_append (tr1 tr2 : List Message) :
    countExperiences (tr1 ++ tr2)
      = countExperiences tr1 + countExperiences tr2 := by
  simp [countExperiences, List.filter_append]

/-- A Thought without a present-but-empty `tool_calls` list always yields a
dispatch result. -/
theorem actOutcome_some (action_map : List (String × Handler)) (t : Thought)
    (ht : t.tool_calls ≠ some []) :
    ∃ r, actOutcome action_map t = some r := by
  unfold actOutcome
  rcases htc : t.tool_calls with _ | tcs
  · exact ⟨_, rfl⟩
  · rcases tcs with _ | ⟨tc, rest⟩
    · exact absurd htc ht
    · exact ⟨_, rfl⟩

/-- The loop completes all `k` iterations and appends exactly `k` Experience
entries whenever the Thoughts it consumes never carry a present-but-empty
`tool_calls` list. -/
theorem runLoop_ok (action_map : List (String × Handler))
    (thoughts : Nat → Thought) :
    ∀ (k i : Nat) (st : AIChatHistory × List Message),
    (∀ m, i ≤ m → m < i + k → (thoughts m).tool_calls ≠ some []) →
    ∃ st2, runLoop action_map thoughts i k st = Except.ok st2 ∧
      countExperiences st2.2 = countExperiences st.2 + k := by
  intro k
  induction k with
  | zero => exact fun i st _ => ⟨st, rfl, by omega⟩
  | succ k ih =>
    intro i st hwf
    have ht : (thoughts i).tool_calls ≠ some [] :=
      hwf i (Nat.le_refl i) (by omega)
    obtain ⟨r, hr⟩ := actOutcome_some action_map (thoughts i) ht
    have hstep := ih (i + 1)
      (appendMsg (appendMsg (appendMsg st "agent"
          (serializeThought (thoughts i)))
        "environment" ("Action result: " ++ r))
        "experience" (serializeExperience (thoughts i) r))
      (fun m h1 h2 => hwf m (by omega) (by omega))
    obtain ⟨st2, hrun, hcount⟩ := hstep
    refine ⟨st2, ?_, ?_⟩
    · simp only [runLoop]
      rw [hr]
      exact hrun
    · rw [hcount]
      simp only [appendMsg, countExperiences_append, List.append_assoc]
      simp [countExperiences]
      omega

/-- The malformed Thought whose `tool_calls` key is present but holds an
empty list. -/
def crashThought : Thought := { content := none, tool_calls := some [] }

/-- The Generator-failure Thought (`generate_response` returned `{}`). -/
def emptyThought : Thought := { content := none, tool_calls := none }

/-- An agent whose Generator produces the malformed empty-list Thought. -/
def crashSpec : AgentSpec :=
  { name := "DeveloperAI", action_map := developer_action_map,
    thoughts := fun _ => crashThought }

/-- An agent whose Generator always fails (empty Thoughts only). -/
def emptyThoughtSpec : AgentSpec :=
  { name := "ResearchAI", action_map := [], thoughts := fun _ => emptyThought }

/-- C3 fails on the code: a Thought with a present-but-empty `tool_calls`
list makes `act` evaluate `action[tool_calls][0]`, raising `IndexError`,
which `run` does not catch — the loop aborts with zero Experience entries
instead of completing its `k = 1` iteration. By contrast, Generator
failures (empty Thoughts) do let the loop complete: three iterations on
the always-failing Generator append exactly three Experience entries. -/
theorem C3_empty_tool_calls_crash :
    runAgent crashSpec 1 = Except.error "list index out of range" ∧
      (runAgent emptyThoughtSpec 3).toOption.map
          (fun st => countExperiences st.2) = some 3 := by
  exact ⟨rfl, rfl⟩

/-- `main`: run every agent, collect per-agent status; an exception escaping
one agent's loop is caught by the `try: future.result() except:` block and
recorded (logged with the agent's name) without affecting the others.
`none` is the logged-failure status, `some` the completion status with the
agent's final Memory Log and append trace. -/
def scheduler (agents : List AgentSpec) (k : Nat) :
    List (String × Option (AIChatHistory × List Message)) :=
  agents.map (fun a => (a.name, (runAgent a k).toOption))

/-- C4: when agent `j` of the scheduled list fails and every other agent's
Thought stream is well formed, the Scheduler still yields one status per
agent; every agent `i ≠ j` completes: its own `run` succeeds with exactly
`k` Experience entries appended and its full final state is retained in the
Scheduler output, while agent `j` is reported as a caught failure. -/
theorem C4_scheduler_isolation (agents : List AgentSpec) (k j : Nat)
    (hj : j < agents.length)
    (hjerr : (runAgent (agents.get ⟨j, hj⟩) k).toOption = none)
    (hwf : ∀ i, (hi : i < agents.length) → i ≠ j →
      wellFormed (agents.get ⟨i, hi⟩) k) :
    (scheduler agents k).length = agents.length ∧
      (∀ i, (hi : i < agents.length) → i ≠ j →
        ∃ st, runAgent (agents.get ⟨i, hi⟩) k = Except.ok st ∧
          countExperiences st.2 = k ∧
          (scheduler agents k).get ⟨i, by simpa [scheduler] using hi⟩
            = ((agents.get ⟨i, hi⟩).name, some st)) ∧
      (scheduler agents k).get ⟨j, by simpa [scheduler] using hj⟩
        = ((agents.get ⟨j, hj⟩).name, none) := by
  refine ⟨by simp [scheduler], ?_, ?_⟩
  · intro i hi hne
    obtain ⟨st, hrun, hcount⟩ :=
      runLoop_ok (agents.get ⟨i, hi⟩).action_map (agents.get ⟨i, hi⟩).thoughts
        k 0 (AIChatHistory.mk0 100, [])
        (fun m h1 h2 => hwf i hi hne m (by omega))
    refine ⟨st, hrun, ?_, ?_⟩
    · simpa [countExperiences] using hcount
    · simp only [scheduler, List.get_eq_getElem, List.getElem_map]
      rw [show runAgent agents[i] k = Except.ok st from hrun]
      rfl
  · simp only [scheduler, List.get_eq_getElem, List.getElem_map]
    rw [show (runAgent agents[j] k).toOption = none from hjerr]

/-- `wellFormed` is decidable, so concrete instances can be checked. -/
instance wellFormedDecidable (a : AgentSpec) (k : Nat) :
    Decidable (wellFormed a k) :=
  inferInstanceAs
    (Decidable (∀ m, m < k → (a.thoughts m).tool_calls ≠ some []))

/-- Witness for C4 at a concrete input: two agents, the first crashing on a
malformed Thought, the second running one clean iteration. -/
theorem C4_scheduler_isolation_witness :
    (scheduler [crashSpec, emptyThoughtSpec] 1).length = 2 ∧
      (scheduler [crashSpec, emptyThoughtSpec] 1).get ⟨0, by decide⟩
        = ("DeveloperAI", none) ∧
      ∃ st, runAgent emptyThoughtSpec 1 = Except.ok st ∧
        countExperiences st.2 = 1 := by
  have h := C4_scheduler_isolation [crashSpec, emptyThoughtSpec] 1 0
    (by decide) (by decide) (by decide)
  obtain ⟨h1, h2, h3⟩ := h
  refine ⟨h1, h3, ?_⟩
  obtain ⟨st, hst, hc, _⟩ := h2 1 (by decide) (by decide)
  exact ⟨st, hst, hc⟩
